import Mathlib

/-!
Verification of the AI flashcard-generation pipeline of this repository.

The pipeline has four parts, each shallowly embedded below from its source:
* the suggestion validator `AiGenerationService.validateSuggestions`
  (src/lib/services/ai-generation.service.ts);
* the generation orchestrator `AiGenerationService.generateFlashcards`
  (the OpenRouter-backed implementation, the one that imports
  `getChatCompletion` from the openrouter service; the repository also
  contains an earlier mock variant of the same class);
* the OpenRouter client `getChatCompletion` / `parseResponse` /
  `handleApiError` (src/lib/openrouter/openrouter.service.ts);
* the request-boundary adapter `POST /api/ai/generate` with its zod schema
  `GenerateFlashcardsSchema`.

JavaScript strings are modelled as `List Char`; `String.prototype.trim`,
`toLowerCase` and `includes` are given explicit executable definitions
(`jsTrim`, `jsToLower`, `jsIncludes`).  ASCII case folding stands in for
the Unicode case folding of the runtime; every string constant the claims
touch is ASCII.  JavaScript exceptions are modelled as explicit alternative
return values, and the two JS built-ins the pipeline calls but does not
define (`fetch` and `JSON.parse` / `JSON.stringify`) enter the model as
explicit oracle parameters of the embedded functions.
-/

/-- Whitespace test used by the `trim` model (`Char.isWhitespace` stands in
for the JS whitespace class; every character in the claims is ASCII). -/
def wsChar (c : Char) : Bool := c.isWhitespace

/-- Model of `String.prototype.trim`: drop leading whitespace, then drop
trailing whitespace (implemented as reverse / dropWhile / reverse). -/
def jsTrim (s : List Char) : List Char :=
  (((s.dropWhile wsChar).reverse.dropWhile wsChar)).reverse

/-- Model of `String.prototype.toLowerCase` (ASCII case folding). -/
def jsToLower (s : List Char) : List Char := s.map Char.toLower

/-- Boolean test that `pat` is a prefix of `s` (helper for `jsIncludes`). -/
def isPrefixList : List Char → List Char → Bool
  | [], _ => true
  | _ :: _, [] => false
  | a :: as, b :: bs => a == b && isPrefixList as bs

/-- Model of `String.prototype.includes pat`: some suffix of `s` starts
with `pat`. -/
def jsIncludes (pat : List Char) : List Char → Bool
  | [] => pat.isEmpty
  | c :: rest => isPrefixList pat (c :: rest) || jsIncludes pat rest

/-- `dropWhile` is idempotent. -/
theorem dropWhile_dropWhile (p : Char → Bool) (l : List Char) :
    (l.dropWhile p).dropWhile p = l.dropWhile p := by
  induction l with
  | nil => rfl
  | cons c rest ih =>
    by_cases h : p c
    · simp [List.dropWhile, h, ih]
    · simp [List.dropWhile, h]

/-- `dropWhile` only shortens a list. -/
theorem length_dropWhile_le' (p : Char → Bool) (l : List Char) :
    (l.dropWhile p).length ≤ l.length := by
  induction l with
  | nil => simp
  | cons c rest ih =>
    by_cases h : p c
    · simp [List.dropWhile, h]
      omega
    · simp [List.dropWhile, h]

/-- `dropWhile p l` is a suffix of `l` (stated as an explicit split). -/
theorem dropWhile_eq_append (p : Char → Bool) (l : List Char) :
    ∃ t, l = t ++ l.dropWhile p := by
  induction l with
  | nil => exact ⟨[], rfl⟩
  | cons c rest ih =>
    by_cases h : p c
    · obtain ⟨t, ht⟩ := ih
      refine ⟨c :: t, ?_⟩
      simp [List.dropWhile, h]
      exact ht
    · exact ⟨[], by simp [List.dropWhile, h]⟩

/-- If `dropWhile p` fixes a list, it fixes every prefix of it. -/
theorem dropWhile_eq_self_of_append (p : Char → Bool) (u r w : List Char)
    (hu : u.dropWhile p = u) (hsplit : u = r ++ w) : r.dropWhile p = r := by
  cases r with
  | nil => rfl
  | cons c r' =>
    by_cases h : p c
    · exfalso
      have h1 : u.dropWhile p = (r' ++ w).dropWhile p := by
        rw [hsplit]
        simp [List.dropWhile, h]
      have h2 : ((r' ++ w).dropWhile p).length ≤ (r' ++ w).length :=
        length_dropWhile_le' p (r' ++ w)
      rw [hu] at h1
      have h3 : u.length = (r' ++ w).length + 1 := by
        rw [hsplit]; simp
      rw [h1] at h3
      omega
    · simp [List.dropWhile, h]

/-- `jsTrim` is idempotent. -/
theorem jsTrim_idem (s : List Char) : jsTrim (jsTrim s) = jsTrim s := by
  unfold jsTrim
  set u := s.dropWhile wsChar with hu
  set d := u.reverse.dropWhile wsChar with hd
  have hufix : u.dropWhile wsChar = u := by
    rw [hu]; exact dropWhile_dropWhile wsChar s
  have hprefix : ∃ w, u = d.reverse ++ w := by
    obtain ⟨t, ht⟩ := dropWhile_eq_append wsChar u.reverse
    refine ⟨t.reverse, ?_⟩
    have := congrArg List.reverse ht
    simpa [hd] using this
  obtain ⟨w, hw⟩ := hprefix
  have hRfix : d.reverse.dropWhile wsChar = d.reverse :=
    dropWhile_eq_self_of_append wsChar u d.reverse w hufix hw
  rw [hRfix]
  have hdfix : d.dropWhile wsChar = d := by
    rw [hd]; exact dropWhile_dropWhile wsChar u.reverse
  simp [hdfix]

/-- Trimming only shortens a string. -/
theorem jsTrim_length_le (s : List Char) : (jsTrim s).length ≤ s.length := by
  unfold jsTrim
  have h1 := length_dropWhile_le' wsChar s
  have h2 := length_dropWhile_le' wsChar (s.dropWhile wsChar).reverse
  simp only [List.length_reverse] at *
  omega

/-- A validated flashcard suggestion (`FlashcardSuggestionDTO`): a trimmed
`front` and `back`. -/
structure FlashcardSuggestionDTO where
  front : List Char
  back : List Char
deriving DecidableEq, Repr

/-- An untyped field of an untrusted candidate object: absent, a string, or
some non-string value (`typeof front !== 'string'` collapses everything
non-string). -/
inductive JsField where
  | undef
  | strVal (s : List Char)
  | nonString
deriving DecidableEq, Repr

/-- An untrusted suggestion candidate as received from the upstream model:
either not an object at all (`null` or a primitive) or an object carrying
whatever sits in `front` and `back`. -/
inductive Candidate where
  | nonObject
  | obj (front back : JsField)
deriving DecidableEq, Repr

/-- Extract the string content of a field, if it is a string. -/
def fieldStr : JsField → Option (List Char)
  | .strVal s => some s
  | _ => none

/-- Per-candidate validation of `validateSuggestions` (the body of the loop
before the duplicate check): the candidate must be an object, `front` must
be a string with non-empty trim and untrimmed length at most 1000, likewise
`back`; on success the trimmed fields are returned. -/
def checkCandidate : Candidate → Option FlashcardSuggestionDTO
  | .nonObject => none
  | .obj f b =>
    match fieldStr f with
    | none => none
    | some front =>
      if (jsTrim front).length = 0 ∨ 1000 < front.length then none
      else
        match fieldStr b with
        | none => none
        | some back =>
          if (jsTrim back).length = 0 ∨ 1000 < back.length then none
          else some ⟨jsTrim front, jsTrim back⟩

/-- The loop of `AiGenerationService.validateSuggestions`, with the `seen`
set of lower-cased front keys made explicit. -/
def validateSuggestionsFrom (seen : List (List Char)) :
    List Candidate → List FlashcardSuggestionDTO
  | [] => []
  | c :: rest =>
    match checkCandidate c with
    | none => validateSuggestionsFrom seen rest
    | some d =>
      if jsToLower d.front ∈ seen then validateSuggestionsFrom seen rest
      else d :: validateSuggestionsFrom (jsToLower d.front :: seen) rest

/-- `AiGenerationService.validateSuggestions`: validate every candidate and
deduplicate by the lower-cased trimmed front text. -/
def validateSuggestions (cs : List Candidate) : List FlashcardSuggestionDTO :=
  validateSuggestionsFrom [] cs

/-- Deduplication by lower-cased `front`, written from the specification
words: keep the first occurrence of each key, drop later ones regardless of
their `back`, preserve order.  Used to state the refinement claim C2. -/
def dedupByFrontKey (seen : List (List Char)) :
    List FlashcardSuggestionDTO → List FlashcardSuggestionDTO
  | [] => []
  | d :: rest =>
    if jsToLower d.front ∈ seen then dedupByFrontKey seen rest
    else d :: dedupByFrontKey (jsToLower d.front :: seen) rest

/-- Re-inject a validated suggestion as a candidate object (feeding the
validator its own output). -/
def injectDTO (d : FlashcardSuggestionDTO) : Candidate :=
  .obj (.strVal d.front) (.strVal d.back)

/-- JS `a || defaultVal` on a nullable string: the empty string is falsy. -/
def jsOrDefault (e : Option (List Char)) (d : List Char) : List Char :=
  match e with
  | some s => if s = [] then d else s
  | none => d

/-- `e?.includes(pat)` on a nullable string (absent string gives `false`,
matching the falsy optional-chaining result). -/
def optIncludes (e : Option (List Char)) (pat : List Char) : Bool :=
  match e with
  | some s => jsIncludes pat s
  | none => false

/-- A thrown JS `Error`: runtime class name (`error.name`) and message. -/
structure JsError where
  name : String
  message : List Char
deriving DecidableEq, Repr

/-- The `flashcards` field of the structured LLM reply
(`result.data.flashcards` may be absent, hence the option). -/
structure FlashcardsData where
  flashcards : Option (List Candidate)
deriving DecidableEq, Repr

/-- The tagged result the OpenRouter client hands the orchestrator
(`ChatCompletionResponse<FlashcardsResponse>`). -/
structure ChatResult where
  success : Bool
  data : Option FlashcardsData
  error : Option (List Char)
deriving DecidableEq, Repr

/-- The successful payload of `generateFlashcards`. -/
structure GenerationResult where
  suggestions : List FlashcardSuggestionDTO
  model_used : String
  tokens_used : Nat
deriving DecidableEq, Repr

/-- Outcome of one `generateFlashcards` call: the returned value or the
thrown error. -/
inductive GenOutcome where
  | success (r : GenerationResult)
  | failure (e : JsError)
deriving DecidableEq, Repr

/-- Default model of the OpenRouter-backed `AiGenerationService`. -/
def defaultModel : String := "openai/gpt-4o-mini"

/-- The error-classification block of `generateFlashcards` run on
`result.error` when the client result is unusable: timeout/abort phrasing
gives `TimeoutError`, a `status 503` marker gives `ServiceUnavailableError`,
a missing-credential marker gives a configuration `GatewayError`, anything
else a generic `GatewayError` carrying `result.error` (or a fixed fallback
when that is null or empty). -/
def classifyClientError (err : Option (List Char)) : JsError :=
  if optIncludes err ("timeout".toList) ∨ optIncludes err ("aborted".toList) then
    ⟨"TimeoutError", "Request to AI service timed out".toList⟩
  else if optIncludes err ("status 503".toList) then
    ⟨"ServiceUnavailableError", "AI service is temporarily unavailable".toList⟩
  else if optIncludes err ("OPENROUTER_API_KEY".toList) then
    ⟨"GatewayError", "AI service configuration error".toList⟩
  else
    ⟨"GatewayError", jsOrDefault err ("Failed to generate flashcards".toList)⟩

/-- `model || this.defaultModel` (empty string falsy). -/
def resolveModel (model : Option String) : String :=
  match model with
  | some m => if m = "" then defaultModel else m
  | none => defaultModel

/-- `AiGenerationService.generateFlashcards` (OpenRouter-backed
implementation), as a function of its inputs and of the client call's
outcome.  `apiKeyPresent` models the truthiness of
`import.meta.env.OPENROUTER_API_KEY`; `res` is what `getChatCompletion`
returned; `stringifyLen` is the character length of
`JSON.stringify(result.data)` (the serialization itself is a JS built-in
and enters the model as this oracle value).  The catch block of the source
re-throws the four classified error types unchanged, so it is the identity
on every error this pure model produces. -/
def generateFlashcards (text : List Char) (model : Option String)
    (apiKeyPresent : Bool) (res : ChatResult) (stringifyLen : Nat) :
    GenOutcome :=
  let selectedModel := resolveModel model
  if apiKeyPresent = false then
    .failure ⟨"GatewayError",
      "AI service configuration error: OPENROUTER_API_KEY not configured".toList⟩
  else if res.success = false ∨ res.data = none then
    .failure (classifyClientError res.error)
  else
    let flashcards := (res.data.getD ⟨none⟩).flashcards.getD []
    let validSuggestions := validateSuggestions flashcards
    if validSuggestions = [] then
      .failure ⟨"NoSuggestionsError",
        "Could not generate valid flashcards from text".toList⟩
    else
      .success ⟨validSuggestions, selectedModel,
        (text.length + stringifyLen) / 4⟩

/-- A JSON error response of the adapter: status plus the fixed `error` /
`message` strings and the optional `retry_after` field. -/
structure ApiResponse where
  status : Nat
  error : String
  message : String
  retry_after : Option Nat
deriving DecidableEq, Repr

/-- The adapter's 502 timeout response. -/
def respGatewayTimeout : ApiResponse :=
  ⟨502, "Gateway timeout", "AI service timeout. Please try again.", none⟩

/-- The adapter's 502 bad-gateway response. -/
def respBadGateway : ApiResponse :=
  ⟨502, "Bad Gateway",
    "AI generation service returned an error. Please try again.", none⟩

/-- The adapter's 503 response with its fixed retry-after hint. -/
def respServiceUnavailable : ApiResponse :=
  ⟨503, "Service unavailable",
    "AI generation service temporarily unavailable", some 60⟩

/-- The adapter's 500 response for zero surviving suggestions. -/
def respNoSuggestions : ApiResponse :=
  ⟨500, "No suggestions generated",
    "Could not generate valid flashcards from the provided text. Please try different text.",
    none⟩

/-- The adapter's generic 500 response. -/
def respInternalError : ApiResponse :=
  ⟨500, "Internal server error",
    "An unexpected error occurred during flashcard generation", none⟩

/-- A value thrown out of the orchestrator as seen by the adapter's catch
block: an `Error` instance, or anything else (`instanceof Error` fails). -/
inductive Thrown where
  | jsErr (e : JsError)
  | nonError
deriving DecidableEq, Repr

/-- The catch block of the `POST /api/ai/generate` adapter: map a thrown
value to a transport response. -/
def mapGenerateError : Thrown → ApiResponse
  | .nonError => respInternalError
  | .jsErr e =>
    if e.name = "TimeoutError" ∨ jsIncludes ("timeout".toList) e.message then
      respGatewayTimeout
    else if e.name = "GatewayError" then respBadGateway
    else if e.name = "ServiceUnavailableError" then respServiceUnavailable
    else if e.name = "NoSuggestionsError" then respNoSuggestions
    else respInternalError

/-- One entry of the zod error `details` array: field path and message. -/
structure FieldError where
  field : String
  message : String
deriving DecidableEq, Repr

/-- Outcome of the `text` branch of `GenerateFlashcardsSchema`
(`z.string().min(1000).max(10000).trim().refine(...)`): zod runs the `min`
and `max` checks on the raw string, then applies the `trim` transform, and
only then the refinement. -/
inductive ZodTextResult where
  | ok (trimmed : List Char)
  | err (message : String)
deriving DecidableEq, Repr

/-- The `text` field validation of `GenerateFlashcardsSchema`. -/
def zodTextCheck (t : List Char) : ZodTextResult :=
  if t.length < 1000 then .err "Text must be at least 1000 characters"
  else if 10000 < t.length then .err "Text must not exceed 10000 characters"
  else
    let trimmed := jsTrim t
    if 0 < trimmed.length then .ok trimmed
    else .err "Text cannot be empty"

/-- The request body of the adapter, restricted to the shapes the claims
quantify over: a body that fails JSON parsing, or a parsed object whose
`text` is a string and whose `model` is absent or a string. -/
inductive RequestBody where
  | notJson
  | objWithText (text : List Char) (model : Option String)
deriving DecidableEq, Repr

/-- The transport-level outcome of one `POST /api/ai/generate` call. -/
inductive PostResult where
  | invalidJson (status : Nat)
  | validationError (status : Nat) (details : List FieldError)
  | ok (status : Nat) (result : GenerationResult)
  | errorResp (r : ApiResponse)
deriving DecidableEq, Repr

/-- The `POST /api/ai/generate` adapter: parse the body, validate it with
the zod schema, invoke the orchestrator on the validated (trimmed) text,
and serialize the result or map the thrown error. -/
def postGenerate (body : RequestBody) (apiKeyPresent : Bool)
    (res : ChatResult) (stringifyLen : Nat) : PostResult :=
  match body with
  | .notJson => .invalidJson 400
  | .objWithText t m =>
    match zodTextCheck t with
    | .err msg => .validationError 400 [⟨"text", msg⟩]
    | .ok trimmed =>
      match generateFlashcards trimmed m apiKeyPresent res stringifyLen with
      | .success r => .ok 200 r
      | .failure e => .errorResp (mapGenerateError (.jsErr e))

/-- Options of `getChatCompletion`, restricted to the bits its control flow
inspects: the user message, whether a `json_schema` response format was
requested, and the per-call API key override. -/
structure ChatOptions where
  userMessage : List Char
  jsonSchemaRequested : Bool
  apiKey : Option (List Char)
deriving DecidableEq, Repr

/-- What the client hands back as `data`: the raw content string (text
mode) or the parsed structured value (schema mode). -/
inductive ClientData (T : Type) where
  | text (s : List Char)
  | parsed (v : T)
deriving DecidableEq, Repr

/-- The client's tagged result `ChatCompletionResponse<T>`. -/
structure ClientResult (T : Type) where
  success : Bool
  data : Option (ClientData T)
  error : Option String
deriving DecidableEq, Repr

/-- The JSON body of an upstream reply as the client reads it: the
`choices[0].message.content` path and the two error-message paths
`error?.message` and `message` that `handleApiError` probes. -/
structure UpstreamPayload where
  content : Option (List Char)
  errMessage : Option String
  topMessage : Option String
deriving DecidableEq, Repr

/-- Outcome of the `fetch` call (a JS built-in, an oracle of the model):
the promise rejects with an `Error` carrying a message, or a response
arrives with its `ok` flag, status, and the result of `safeJson` on its
body (`none` when the body is not valid JSON). -/
inductive FetchOutcome where
  | throwErr (msg : String)
  | response (ok : Bool) (status : Nat) (body : Option UpstreamPayload)
deriving DecidableEq, Repr

/-- `a || b` on nullable strings where the result must still be truthy to
be used (`if (!apiKey) throw`): the first non-empty string, if any. -/
def truthyStr : Option (List Char) → Option (List Char)
  | some s => if s = [] then none else some s
  | none => none

/-- The effective API key: `options.apiKey || process.env.OPENROUTER_API_KEY`
followed by the `!apiKey` guard. -/
def firstTruthy (a b : Option (List Char)) : Option (List Char) :=
  match truthyStr a with
  | some s => some s
  | none => truthyStr b

/-- `message || default` on a nullable string (empty string falsy). -/
def jsOrS : Option String → String → String
  | some s, d => if s = "" then d else s
  | none, d => d

/-- The message `handleApiError` extracts from a non-2xx error payload:
`error?.message || message || <fixed fallback>`. -/
def errMsgOf (p : UpstreamPayload) : String :=
  jsOrS p.errMessage
    (jsOrS p.topMessage "An unexpected error occurred with the AI service.")

/-- `handleApiError(errorPayload, status)` for a non-2xx response: a plain
object payload yields its extracted message suffixed with the status; a
`null` payload (malformed JSON error body) falls through to the generic
message. -/
def handleApiErrorPayload (T : Type) (body : Option UpstreamPayload)
    (status : Nat) : ClientResult T :=
  match body with
  | some p =>
    ⟨false, none, some
      (if status ≠ 0 then errMsgOf p ++ " (status " ++ toString status ++ ")"
       else errMsgOf p)⟩
  | none =>
    ⟨false, none, some "An unexpected error occurred with the AI service."⟩

/-- `parseResponse(payload, responseFormat)`: reject a null payload and a
missing or empty content; in schema mode run `JSON.parse` (the oracle
`parse`) on the content and report a parse failure with its own distinct
message; in text mode return the content as-is. -/
def parseResponse (T : Type) (payload : Option UpstreamPayload)
    (jsonSchemaRequested : Bool) (parse : List Char → Option T) :
    ClientResult T :=
  match payload with
  | none => ⟨false, none, some "Received an empty response from the AI service."⟩
  | some p =>
    match p.content with
    | none => ⟨false, none, some "No content received from the AI service."⟩
    | some c =>
      if c = [] then
        ⟨false, none, some "No content received from the AI service."⟩
      else if jsonSchemaRequested then
        match parse c with
        | some v => ⟨true, some (.parsed v), none⟩
        | none => ⟨false, none, some "The AI response was not valid JSON."⟩
      else ⟨true, some (.text c), none⟩

/-- `getChatCompletion`: validate the options, resolve the credential (a
missing one raises `ConfigurationError` before `fetch` is reached), send
the request, and normalize every outcome into the tagged result — the
surrounding try/catch feeds every thrown error through `handleApiError`,
so nothing escapes the function. -/
def getChatCompletion (T : Type) (opts : ChatOptions)
    (envKey : Option (List Char)) (fetched : FetchOutcome)
    (parse : List Char → Option T) : ClientResult T :=
  if opts.userMessage = [] then
    ⟨false, none, some "`userMessage` must be a non-empty string."⟩
  else
    match firstTruthy opts.apiKey envKey with
    | none => ⟨false, none, some "OPENROUTER_API_KEY is not configured."⟩
    | some _ =>
      match fetched with
      | .throwErr m => ⟨false, none, some m⟩
      | .response ok status body =>
        if ok = false then handleApiErrorPayload T body status
        else parseResponse T body opts.jsonSchemaRequested parse

/-- `checkCandidate` on an object with two string fields, unfolded. -/
theorem checkCandidate_obj (f b : List Char) :
    checkCandidate (.obj (.strVal f) (.strVal b)) =
      if (jsTrim f).length = 0 ∨ 1000 < f.length then none
      else if (jsTrim b).length = 0 ∨ 1000 < b.length then none
      else some ⟨jsTrim f, jsTrim b⟩ := rfl

/-- The validator loop is deduplication-by-key applied to the per-candidate
validation of the input. -/
theorem vsf_eq_dedup (cs : List Candidate) (seen : List (List Char)) :
    validateSuggestionsFrom seen cs =
      dedupByFrontKey seen (cs.filterMap checkCandidate) := by
  induction cs generalizing seen with
  | nil => rfl
  | cons c rest ih =>
    cases h : checkCandidate c with
    | none =>
      simp [validateSuggestionsFrom, List.filterMap_cons, h, ih]
    | some d =>
      by_cases hmem : jsToLower d.front ∈ seen
      · simp [validateSuggestionsFrom, List.filterMap_cons, h, hmem,
          dedupByFrontKey, ih]
      · simp [validateSuggestionsFrom, List.filterMap_cons, h, hmem,
          dedupByFrontKey, ih]

/-- Deduplication yields a sublist (first-seen order preserved, survivors
unchanged). -/
theorem dedup_sublist (l : List FlashcardSuggestionDTO)
    (seen : List (List Char)) : (dedupByFrontKey seen l).Sublist l := by
  induction l generalizing seen with
  | nil => simp [dedupByFrontKey]
  | cons d rest ih =>
    by_cases hmem : jsToLower d.front ∈ seen
    · simp only [dedupByFrontKey, if_pos hmem]
      exact (ih seen).trans (List.sublist_cons_self d rest)
    · simp only [dedupByFrontKey, if_neg hmem]
      exact (ih (jsToLower d.front :: seen)).cons₂ d

/-- The keys surviving deduplication are pairwise distinct and disjoint
from the starting `seen` set. -/
theorem dedup_keys (l : List FlashcardSuggestionDTO)
    (seen : List (List Char)) :
    ((dedupByFrontKey seen l).map (fun d => jsToLower d.front)).Nodup ∧
      ∀ k ∈ (dedupByFrontKey seen l).map (fun d => jsToLower d.front),
        k ∉ seen := by
  induction l generalizing seen with
  | nil => simp [dedupByFrontKey]
  | cons d rest ih =>
    by_cases hmem : jsToLower d.front ∈ seen
    · simpa only [dedupByFrontKey, if_pos hmem] using ih seen
    · simp only [dedupByFrontKey, if_neg hmem, List.map_cons, List.nodup_cons,
        List.mem_cons]
      obtain ⟨ihnd, ihfresh⟩ := ih (jsToLower d.front :: seen)
      refine ⟨⟨?_, ihnd⟩, ?_⟩
      · intro hcontra
        exact (ihfresh _ hcontra) (List.mem_cons_self _ _)
      · rintro k (rfl | hk)
        · exact hmem
        · intro hks
          exact (ihfresh k hk) (List.mem_cons_of_mem _ hks)

/-- C2: the validator deduplicates by the lower-cased trimmed `front` text —
its output is exactly the keep-first-occurrence deduplication (which ignores
`back`) of the per-candidate-validated input, it is a sublist of that input
(first-seen order preserved), and its keys are pairwise distinct. -/
theorem claim2_dedup_by_front_key (cs : List Candidate) :
    validateSuggestions cs = dedupByFrontKey [] (cs.filterMap checkCandidate) ∧
    (validateSuggestions cs).Sublist (cs.filterMap checkCandidate) ∧
    ((validateSuggestions cs).map (fun d => jsToLower d.front)).Nodup := by
  refine ⟨vsf_eq_dedup cs [], ?_, ?_⟩
  · rw [validateSuggestions, vsf_eq_dedup]
    exact dedup_sublist _ _
  · rw [validateSuggestions, vsf_eq_dedup]
    exact (dedup_keys _ _).1

set_option maxRecDepth 10000 in
/-- C1 counterexample: a candidate whose `front` has trimmed length 1 but
untrimmed length 1001 satisfies the claim's retention condition (both
trimmed lengths in [1, 1000]) yet the validator drops it, because the code
checks the upper bound on the UNtrimmed `front.length`. -/
theorem claim1_counterexample :
    1 ≤ (jsTrim ('a' :: List.replicate 1000 ' ')).length ∧
    (jsTrim ('a' :: List.replicate 1000 ' ')).length ≤ 1000 ∧
    1 ≤ (jsTrim ['b']).length ∧ (jsTrim ['b']).length ≤ 1000 ∧
    validateSuggestions
      [Candidate.obj (JsField.strVal ('a' :: List.replicate 1000 ' '))
        (JsField.strVal ['b'])] = [] := by
  decide


/-- Unfolding of the validator loop when the candidate fails validation. -/
theorem vsf_cons_none (seen : List (List Char)) (c : Candidate)
    (rest : List Candidate) (hc : checkCandidate c = none) :
    validateSuggestionsFrom seen (c :: rest) =
      validateSuggestionsFrom seen rest := by
  rw [validateSuggestionsFrom, hc]

/-- Unfolding of the validator loop when the candidate passes validation. -/
theorem vsf_cons_some (seen : List (List Char)) (c : Candidate)
    (rest : List Candidate) (d : FlashcardSuggestionDTO)
    (hc : checkCandidate c = some d) :
    validateSuggestionsFrom seen (c :: rest) =
      if jsToLower d.front ∈ seen then validateSuggestionsFrom seen rest
      else d :: validateSuggestionsFrom (jsToLower d.front :: seen) rest := by
  rw [validateSuggestionsFrom, hc]

/-- Every element of the validator loop's output arises from some input
candidate passing the per-candidate validation. -/
theorem mem_vsf_exists (l : List Candidate) :
    ∀ (seen : List (List Char)) d, d ∈ validateSuggestionsFrom seen l →
      ∃ c ∈ l, checkCandidate c = some d := by
  induction l with
  | nil => intro seen d hd; simp [validateSuggestionsFrom] at hd
  | cons c rest ih =>
    intro seen d hd
    cases hc : checkCandidate c with
    | none =>
      rw [vsf_cons_none seen c rest hc] at hd
      obtain ⟨c', hc', hcd⟩ := ih seen d hd
      exact ⟨c', List.mem_cons_of_mem _ hc', hcd⟩
    | some d' =>
      rw [vsf_cons_some seen c rest d' hc] at hd
      by_cases hmem : jsToLower d'.front ∈ seen
      · rw [if_pos hmem] at hd
        obtain ⟨c', hc', hcd⟩ := ih seen d hd
        exact ⟨c', List.mem_cons_of_mem _ hc', hcd⟩
      · rw [if_neg hmem] at hd
        rcases List.mem_cons.mp hd with rfl | hd'
        · exact ⟨c, List.mem_cons_self _ _, hc⟩
        · obtain ⟨c', hc', hcd⟩ := ih _ d hd'
          exact ⟨c', List.mem_cons_of_mem _ hc', hcd⟩

/-- The deduplication keys of the validator's output are pairwise
distinct. -/
theorem validateSuggestions_keys_nodup (cs : List Candidate) :
    ((validateSuggestions cs).map (fun d => jsToLower d.front)).Nodup := by
  rw [validateSuggestions, vsf_eq_dedup]
  exact (dedup_keys _ _).1

/-- C1 as amended: a candidate passes the per-candidate field validation iff
it is an object whose `front` is a string with trimmed length at least 1 and
UNtrimmed length at most 1000 and whose `back` satisfies the same; every
retained suggestion stores both fields trimmed; and every element of the
validator's output arises from a candidate passing these checks.  Dropping
is silent: the validator is a total function, no exception is modelled or
needed. -/
theorem claim1_field_validation (cs : List Candidate) :
    (∀ c : Candidate, (checkCandidate c).isSome = true ↔
        ∃ f b, c = Candidate.obj (JsField.strVal f) (JsField.strVal b) ∧
          1 ≤ (jsTrim f).length ∧ f.length ≤ 1000 ∧
          1 ≤ (jsTrim b).length ∧ b.length ≤ 1000) ∧
    (∀ f b,
        (checkCandidate (Candidate.obj (JsField.strVal f) (JsField.strVal b))).isSome
            = true →
        checkCandidate (Candidate.obj (JsField.strVal f) (JsField.strVal b)) =
          some ⟨jsTrim f, jsTrim b⟩) ∧
    (∀ d ∈ validateSuggestions cs, ∃ c ∈ cs, checkCandidate c = some d) := by
  have hkey : ∀ f b,
      ¬((jsTrim f).length = 0 ∨ 1000 < f.length) →
      ¬((jsTrim b).length = 0 ∨ 1000 < b.length) →
      checkCandidate (Candidate.obj (JsField.strVal f) (JsField.strVal b)) =
        some ⟨jsTrim f, jsTrim b⟩ := by
    intro f b h1 h2
    rw [checkCandidate_obj, if_neg h1, if_neg h2]
  refine ⟨?_, ?_, ?_⟩
  · intro c
    constructor
    · intro hsome
      cases c with
      | nonObject => simp [checkCandidate] at hsome
      | obj f b =>
        cases f with
        | strVal fs =>
          cases b with
          | strVal bs =>
            rw [checkCandidate_obj] at hsome
            by_cases h1 : (jsTrim fs).length = 0 ∨ 1000 < fs.length
            · rw [if_pos h1] at hsome
              simp at hsome
            · by_cases h2 : (jsTrim bs).length = 0 ∨ 1000 < bs.length
              · rw [if_neg h1, if_pos h2] at hsome
                simp at hsome
              · push_neg at h1 h2
                exact ⟨fs, bs, rfl, by omega, by omega, by omega, by omega⟩
          | undef => simp [checkCandidate, fieldStr] at hsome
          | nonString => simp [checkCandidate, fieldStr] at hsome
        | undef => simp [checkCandidate, fieldStr] at hsome
        | nonString => simp [checkCandidate, fieldStr] at hsome
    · rintro ⟨f, b, rfl, hf1, hf2, hb1, hb2⟩
      rw [hkey f b (by omega) (by omega)]
      rfl
  · intro f b hsome
    rw [checkCandidate_obj] at hsome
    by_cases h1 : (jsTrim f).length = 0 ∨ 1000 < f.length
    · rw [if_pos h1] at hsome
      simp at hsome
    · by_cases h2 : (jsTrim b).length = 0 ∨ 1000 < b.length
      · rw [if_neg h1, if_pos h2] at hsome
        simp at hsome
      · exact hkey f b h1 h2
  · intro d hd
    exact mem_vsf_exists cs [] d hd

/-- C1 witness: the amended claim applied at a concrete in-bounds candidate
shows it is retained with both fields trimmed. -/
theorem claim1_field_validation_witness :
    checkCandidate (Candidate.obj (JsField.strVal (' ' :: ['q']))
        (JsField.strVal ['a'])) = some ⟨['q'], ['a']⟩ := by
  have h := (claim1_field_validation []).2.1 (' ' :: ['q']) ['a'] (by decide)
  have hf : jsTrim (' ' :: ['q']) = ['q'] := by decide
  have hb : jsTrim ['a'] = ['a'] := by decide
  rw [h, hf, hb]

/-- A suggestion produced by the per-candidate validation passes it again
unchanged: its fields are already trimmed (trimming is idempotent) and
within bounds. -/
theorem checkCandidate_injectDTO (c : Candidate) (d : FlashcardSuggestionDTO)
    (hc : checkCandidate c = some d) :
    checkCandidate (injectDTO d) = some d := by
  cases c with
  | nonObject => simp [checkCandidate] at hc
  | obj f b =>
    cases f with
    | strVal fs =>
      cases b with
      | strVal bs =>
        rw [checkCandidate_obj] at hc
        by_cases h1 : (jsTrim fs).length = 0 ∨ 1000 < fs.length
        · rw [if_pos h1] at hc; exact absurd hc (by simp)
        · by_cases h2 : (jsTrim bs).length = 0 ∨ 1000 < bs.length
          · rw [if_neg h1, if_pos h2] at hc; exact absurd hc (by simp)
          · rw [if_neg h1, if_neg h2] at hc
            obtain rfl := (Option.some_inj.mp hc).symm
            push_neg at h1 h2
            have hf1 : (jsTrim (jsTrim fs)).length ≠ 0 := by
              rw [jsTrim_idem]; exact h1.1
            have hf2 : ¬(1000 < (jsTrim fs).length) := by
              have := jsTrim_length_le fs; omega
            have hb1 : (jsTrim (jsTrim bs)).length ≠ 0 := by
              rw [jsTrim_idem]; exact h2.1
            have hb2 : ¬(1000 < (jsTrim bs).length) := by
              have := jsTrim_length_le bs; omega
            show checkCandidate (Candidate.obj (JsField.strVal (jsTrim fs))
              (JsField.strVal (jsTrim bs))) = _
            rw [checkCandidate_obj,
              if_neg (by rw [jsTrim_idem]; omega),
              if_neg (by rw [jsTrim_idem]; omega),
              jsTrim_idem, jsTrim_idem]
      | undef => simp [checkCandidate, fieldStr] at hc
      | nonString => simp [checkCandidate, fieldStr] at hc
    | undef => simp [checkCandidate, fieldStr] at hc
    | nonString => simp [checkCandidate, fieldStr] at hc

/-- Running the validator loop over suggestions that each pass validation
unchanged, whose keys are pairwise distinct and unseen, returns them
unchanged. -/
theorem vsf_fixpoint (l : List FlashcardSuggestionDTO)
    (seen : List (List Char))
    (hval : ∀ d ∈ l, checkCandidate (injectDTO d) = some d)
    (hnd : (l.map (fun d => jsToLower d.front)).Nodup)
    (hfresh : ∀ d ∈ l, jsToLower d.front ∉ seen) :
    validateSuggestionsFrom seen (l.map injectDTO) = l := by
  induction l generalizing seen with
  | nil => rfl
  | cons d rest ih =>
    have hd : checkCandidate (injectDTO d) = some d :=
      hval d (List.mem_cons_self _ _)
    rw [List.map_cons, vsf_cons_some seen (injectDTO d) (rest.map injectDTO) d hd,
      if_neg (hfresh d (List.mem_cons_self _ _))]
    congr 1
    rw [List.map_cons, List.nodup_cons] at hnd
    refine ih (jsToLower d.front :: seen)
      (fun d' hd' => hval d' (List.mem_cons_of_mem _ hd')) hnd.2 ?_
    intro d' hd'
    rw [List.mem_cons]
    push_neg
    constructor
    · intro heq
      exact hnd.1 (heq ▸ List.mem_map_of_mem (fun d => jsToLower d.front) hd')
    · exact hfresh d' (List.mem_cons_of_mem _ hd')

/-- C10: the suggestion validator is idempotent — feeding its own output
back in (as candidate objects) returns the same list, in the same order,
because every retained suggestion is already trimmed, within bounds, and
carries a unique deduplication key. -/
theorem claim10_validator_idempotent (cs : List Candidate) :
    validateSuggestions ((validateSuggestions cs).map injectDTO) =
      validateSuggestions cs := by
  apply vsf_fixpoint
  · intro d hd
    obtain ⟨c, _, hc⟩ := mem_vsf_exists cs [] d hd
    exact checkCandidate_injectDTO c d hc
  · exact validateSuggestions_keys_nodup cs
  · intro d _
    exact List.not_mem_nil _

/-- The `TimeoutError` the orchestrator throws. -/
def errTimeout : JsError :=
  ⟨"TimeoutError", "Request to AI service timed out".toList⟩

/-- The `ServiceUnavailableError` the orchestrator throws. -/
def errServiceUnavailable : JsError :=
  ⟨"ServiceUnavailableError", "AI service is temporarily unavailable".toList⟩

/-- The `NoSuggestionsError` the orchestrator throws. -/
def errNoSuggestions : JsError :=
  ⟨"NoSuggestionsError", "Could not generate valid flashcards from text".toList⟩

/-- C4: when the client call succeeded but every candidate of the upstream
reply is dropped by the validator, the orchestrator throws
`NoSuggestionsError`, and the adapter maps that error to a 500 response
whose error kind is "No suggestions generated". -/
theorem claim4_empty_after_filter (text : List Char) (model : Option String)
    (res : ChatResult) (slen : Nat) (d : FlashcardsData)
    (h1 : res.success = true) (h2 : res.data = some d)
    (h3 : validateSuggestions (d.flashcards.getD []) = []) :
    generateFlashcards text model true res slen = .failure errNoSuggestions ∧
    mapGenerateError (.jsErr errNoSuggestions) = respNoSuggestions ∧
    respNoSuggestions.status = 500 ∧
    respNoSuggestions.error = "No suggestions generated" := by
  refine ⟨?_, by decide, rfl, rfl⟩
  simp only [generateFlashcards, h1, h2]
  simp [h3, errNoSuggestions]

/-- C4 witness: a successful client reply whose `flashcards` array is empty
makes the orchestrator throw `NoSuggestionsError` and the adapter answer
500 / "No suggestions generated". -/
theorem claim4_empty_after_filter_witness :
    generateFlashcards [] none true ⟨true, some ⟨some []⟩, none⟩ 0 =
      .failure errNoSuggestions ∧
    mapGenerateError (.jsErr errNoSuggestions) = respNoSuggestions := by
  have h := claim4_empty_after_filter [] none ⟨true, some ⟨some []⟩, none⟩ 0
    ⟨some []⟩ rfl rfl rfl
  exact ⟨h.1, h.2.1⟩

/-- C5: on a failed client result the orchestrator classifies the error
message — "timeout"/"aborted" phrasing throws `TimeoutError` (and the
adapter answers 502 with a timeout-specific message), a "status 503" marker
throws `ServiceUnavailableError`, and anything else throws a
`GatewayError`. -/
theorem claim5_timeout_classification (text : List Char)
    (model : Option String) (res : ChatResult) (slen : Nat)
    (h : res.success = false) :
    (optIncludes res.error ("timeout".toList) = true ∨
        optIncludes res.error ("aborted".toList) = true →
      generateFlashcards text model true res slen = .failure errTimeout ∧
      mapGenerateError (.jsErr errTimeout) = respGatewayTimeout ∧
      respGatewayTimeout.status = 502 ∧
      respGatewayTimeout.message = "AI service timeout. Please try again.") ∧
    (optIncludes res.error ("timeout".toList) = false →
      optIncludes res.error ("aborted".toList) = false →
      optIncludes res.error ("status 503".toList) = true →
      generateFlashcards text model true res slen =
        .failure errServiceUnavailable) ∧
    (optIncludes res.error ("timeout".toList) = false →
      optIncludes res.error ("aborted".toList) = false →
      optIncludes res.error ("status 503".toList) = false →
      ∃ e, generateFlashcards text model true res slen = .failure e ∧
        e.name = "GatewayError") := by
  have hbase : generateFlashcards text model true res slen =
      .failure (classifyClientError res.error) := by
    simp only [generateFlashcards, h]
    simp
  refine ⟨?_, ?_, ?_⟩
  · intro hto
    have hcl : classifyClientError res.error = errTimeout := by
      rw [classifyClientError, if_pos]
      · rfl
      · rcases hto with hto | hto
        · exact Or.inl hto
        · exact Or.inr hto
    exact ⟨by rw [hbase, hcl], by decide, rfl, rfl⟩
  · intro h1 h2 h3
    have hcl : classifyClientError res.error = errServiceUnavailable := by
      rw [classifyClientError, if_neg, if_pos h3]
      · rfl
      · rintro (hc | hc) <;> simp_all
    rw [hbase, hcl]
  · intro h1 h2 h3
    by_cases hk : optIncludes res.error ("OPENROUTER_API_KEY".toList) = true
    · refine ⟨⟨"GatewayError", "AI service configuration error".toList⟩,
        ?_, rfl⟩
      have hcl : classifyClientError res.error =
          ⟨"GatewayError", "AI service configuration error".toList⟩ := by
        rw [classifyClientError, if_neg, if_neg, if_pos hk]
        · simp_all
        · rintro (hc | hc) <;> simp_all
      rw [hbase, hcl]
    · refine ⟨⟨"GatewayError",
        jsOrDefault res.error ("Failed to generate flashcards".toList)⟩, ?_, rfl⟩
      have hcl : classifyClientError res.error =
          ⟨"GatewayError",
            jsOrDefault res.error ("Failed to generate flashcards".toList)⟩ := by
        rw [classifyClientError, if_neg, if_neg, if_neg hk]
        · simp_all
        · rintro (hc | hc) <;> simp_all
      rw [hbase, hcl]

/-- C5 witness: a failed client result whose error message is exactly
"timeout" is classified as `TimeoutError` and mapped to the 502 timeout
response. -/
theorem claim5_timeout_classification_witness :
    generateFlashcards [] none true ⟨false, none, some ("timeout".toList)⟩ 0 =
      .failure errTimeout ∧
    mapGenerateError (.jsErr errTimeout) = respGatewayTimeout := by
  have h := (claim5_timeout_classification [] none
    ⟨false, none, some ("timeout".toList)⟩ 0 rfl).1 (Or.inl (by decide))
  exact ⟨h.1, h.2.1⟩

/-- A `GatewayError` whose message does not contain "timeout" is mapped by
the adapter to the fixed 502 bad-gateway response. -/
theorem mapGenerateError_gateway (e : JsError) (hn : e.name = "GatewayError")
    (hm : jsIncludes ("timeout".toList) e.message = false) :
    mapGenerateError (.jsErr e) = respBadGateway := by
  rw [mapGenerateError, if_neg, if_pos hn]
  rintro (hc | hc)
  · rw [hn] at hc
    exact absurd hc (by decide)
  · simp_all

/-- Every error the classification block can produce: the fixed timeout
error, the fixed service-unavailable error, or a `GatewayError` whose
message never contains "timeout" (the timeout branch would have fired
first). -/
theorem classifyClientError_cases (err : Option (List Char)) :
    classifyClientError err = errTimeout ∨
    classifyClientError err = errServiceUnavailable ∨
    ((classifyClientError err).name = "GatewayError" ∧
      jsIncludes ("timeout".toList) (classifyClientError err).message = false) := by
  by_cases h1 : (optIncludes err ("timeout".toList) : Prop) ∨
      (optIncludes err ("aborted".toList) : Prop)
  · left
    rw [classifyClientError, if_pos h1]
    rfl
  · by_cases h2 : (optIncludes err ("status 503".toList) : Prop)
    · right; left
      rw [classifyClientError, if_neg h1, if_pos h2]
      rfl
    · right; right
      by_cases h3 : (optIncludes err ("OPENROUTER_API_KEY".toList) : Prop)
      · rw [classifyClientError, if_neg h1, if_neg h2, if_pos h3]
        exact ⟨rfl, by decide⟩
      · rw [classifyClientError, if_neg h1, if_neg h2, if_neg h3]
        refine ⟨rfl, ?_⟩
        cases err with
        | none => decide
        | some s =>
          by_cases hs : s = []
          · subst hs; decide
          · show jsIncludes ("timeout".toList)
              (jsOrDefault (some s) ("Failed to generate flashcards".toList)) = false
            rw [jsOrDefault, if_neg hs]
            cases hx : optIncludes (some s) ("timeout".toList) with
            | false => exact hx
            | true => exact absurd (Or.inl hx) h1

/-- The configuration `GatewayError` thrown when the environment lacks the
OpenRouter credential. -/
def errKeyMissing : JsError :=
  ⟨"GatewayError",
    "AI service configuration error: OPENROUTER_API_KEY not configured".toList⟩

/-- Unfolding of the orchestrator when the credential is missing. -/
theorem generateFlashcards_noKey (text : List Char) (model : Option String)
    (res : ChatResult) (slen : Nat) :
    generateFlashcards text model false res slen = .failure errKeyMissing := rfl

/-- Unfolding of the orchestrator when the client result is unusable. -/
theorem generateFlashcards_clientError (text : List Char)
    (model : Option String) (res : ChatResult) (slen : Nat)
    (h : res.success = false ∨ res.data = none) :
    generateFlashcards text model true res slen =
      .failure (classifyClientError res.error) := by
  simp only [generateFlashcards]
  rw [if_neg (by decide : ¬(true = false)), if_pos h]

/-- Unfolding of the orchestrator on a usable client result. -/
theorem generateFlashcards_success_path (text : List Char)
    (model : Option String) (res : ChatResult) (slen : Nat)
    (d : FlashcardsData) (hs : res.success = true) (hd : res.data = some d) :
    generateFlashcards text model true res slen =
      (if validateSuggestions (d.flashcards.getD []) = [] then
        .failure errNoSuggestions
      else
        .success ⟨validateSuggestions (d.flashcards.getD []),
          resolveModel model, (text.length + slen) / 4⟩) := by
  simp only [generateFlashcards]
  rw [if_neg (by decide : ¬(true = false)),
    if_neg (by rw [hs, hd]; simp), hd]
  rfl

/-- Every error `generateFlashcards` can throw: a `GatewayError` whose
message does not contain "timeout" (configuration or generic upstream
failure), the fixed timeout error, the fixed service-unavailable error, or
the fixed no-suggestions error. -/
theorem generateFlashcards_failure_cases (text : List Char)
    (model : Option String) (key : Bool) (res : ChatResult) (slen : Nat)
    (e : JsError)
    (h : generateFlashcards text model key res slen = .failure e) :
    (e.name = "GatewayError" ∧
      jsIncludes ("timeout".toList) e.message = false) ∨
    e = errTimeout ∨ e = errServiceUnavailable ∨ e = errNoSuggestions := by
  cases hk : key with
  | false =>
    subst hk
    rw [generateFlashcards_noKey] at h
    obtain rfl := GenOutcome.failure.inj h
    exact Or.inl ⟨rfl, by decide⟩
  | true =>
    subst hk
    by_cases hbad : res.success = false ∨ res.data = none
    · rw [generateFlashcards_clientError text model res slen hbad] at h
      obtain rfl := GenOutcome.failure.inj h
      rcases classifyClientError_cases res.error with hc | hc | hc
      · exact Or.inr (Or.inl hc)
      · exact Or.inr (Or.inr (Or.inl hc))
      · exact Or.inl hc
    · push_neg at hbad
      obtain ⟨hs, hd⟩ := hbad
      rcases Option.ne_none_iff_exists'.mp hd with ⟨d, hdd⟩
      have hs' : res.success = true := by
        cases hres : res.success
        · exact absurd hres hs
        · rfl
      rw [generateFlashcards_success_path text model res slen d hs' hdd] at h
      by_cases hv : validateSuggestions (d.flashcards.getD []) = []
      · rw [if_pos hv] at h
        obtain rfl := GenOutcome.failure.inj h
        exact Or.inr (Or.inr (Or.inr rfl))
      · rw [if_neg hv] at h
        exact GenOutcome.noConfusion h

/-- C6: every exception thrown out of the orchestrator is mapped by the
adapter by category — `ServiceUnavailableError` yields the fixed 503
response with its `retry_after: 60` hint, an exception whose name is not
among the four service categories would yield the generic 500 response
(the orchestrator in fact only throws the four), and every response comes
from the fixed closed set of constant responses, so no upstream error body
or stack trace can appear in any of them. -/
theorem claim6_adapter_error_mapping (text : List Char)
    (model : Option String) (key : Bool) (res : ChatResult) (slen : Nat)
    (e : JsError)
    (h : generateFlashcards text model key res slen = .failure e) :
    (e.name = "ServiceUnavailableError" →
      mapGenerateError (.jsErr e) = respServiceUnavailable ∧
      respServiceUnavailable.status = 503 ∧
      respServiceUnavailable.retry_after = some 60) ∧
    (e.name ∉ (["TimeoutError", "GatewayError", "ServiceUnavailableError",
        "NoSuggestionsError"] : List String) →
      mapGenerateError (.jsErr e) = respInternalError) ∧
    mapGenerateError (.jsErr e) ∈
      [respGatewayTimeout, respBadGateway, respServiceUnavailable,
        respNoSuggestions, respInternalError] := by
  rcases generateFlashcards_failure_cases text model key res slen e h
    with hc | hc | hc | hc
  · have hm := mapGenerateError_gateway e hc.1 hc.2
    refine ⟨?_, ?_, ?_⟩
    · intro hsu
      rw [hc.1] at hsu
      exact absurd hsu (by decide)
    · intro hnot
      exfalso
      exact hnot (by rw [hc.1]; decide)
    · rw [hm]; decide
  · subst hc
    refine ⟨?_, ?_, ?_⟩
    · intro hsu; exact absurd hsu (by decide)
    · intro hnot; exact absurd (by decide) hnot
    · decide
  · subst hc
    refine ⟨?_, ?_, ?_⟩
    · intro _; exact ⟨by decide, rfl, rfl⟩
    · intro hnot; exact absurd (by decide) hnot
    · decide
  · subst hc
    refine ⟨?_, ?_, ?_⟩
    · intro hsu; exact absurd hsu (by decide)
    · intro hnot; exact absurd (by decide) hnot
    · decide

/-- C6 witness: a failed client result carrying a "status 503" message
makes the orchestrator throw `ServiceUnavailableError`, which the adapter
maps to the 503 response with its fixed 60-second retry-after hint. -/
theorem claim6_adapter_error_mapping_witness :
    mapGenerateError (.jsErr errServiceUnavailable) = respServiceUnavailable ∧
    respServiceUnavailable.retry_after = some 60 := by
  have hfail : generateFlashcards [] none true
      ⟨false, none, some ("status 503".toList)⟩ 0 =
        .failure errServiceUnavailable := by decide
  have h := (claim6_adapter_error_mapping [] none true
    ⟨false, none, some ("status 503".toList)⟩ 0 errServiceUnavailable hfail).1
    (by decide)
  exact ⟨h.1, h.2.2⟩

/-- C9: on every successful generation the returned `tokens_used` is the
(non-negative, by its `Nat` type) floor of the combined character length of
the input text and the serialized output payload divided by 4; `slen` is
the oracle standing for `JSON.stringify(result.data).length`. -/
theorem claim9_token_estimate (text : List Char) (model : Option String)
    (res : ChatResult) (slen : Nat) (d : FlashcardsData)
    (h1 : res.success = true) (h2 : res.data = some d)
    (h3 : validateSuggestions (d.flashcards.getD []) ≠ []) :
    ∃ r, generateFlashcards text model true res slen = .success r ∧
      r.tokens_used = (text.length + slen) / 4 ∧
      r.suggestions = validateSuggestions (d.flashcards.getD []) ∧
      r.model_used = resolveModel model := by
  have hcl : generateFlashcards text model true res slen =
      .success ⟨validateSuggestions (d.flashcards.getD []),
        resolveModel model, (text.length + slen) / 4⟩ := by
    rw [generateFlashcards_success_path text model res slen d h1 h2, if_neg h3]
  exact ⟨_, hcl, rfl, rfl, rfl⟩

/-- C9 witness: an 8-character text with a 12-character serialized payload
yields `tokens_used = (8 + 12) / 4 = 5`. -/
theorem claim9_token_estimate_witness :
    ∃ r, generateFlashcards (List.replicate 8 'x') none true
        ⟨true, some ⟨some [Candidate.obj (JsField.strVal ['q'])
          (JsField.strVal ['a'])]⟩, none⟩ 12 = .success r ∧
      r.tokens_used = 5 := by
  obtain ⟨r, hr, ht, _, _⟩ := claim9_token_estimate (List.replicate 8 'x') none
    ⟨true, some ⟨some [Candidate.obj (JsField.strVal ['q'])
      (JsField.strVal ['a'])]⟩, none⟩ 12
    ⟨some [Candidate.obj (JsField.strVal ['q']) (JsField.strVal ['a'])]⟩
    rfl rfl (by decide)
  refine ⟨r, hr, ?_⟩
  rw [ht]
  decide

set_option maxRecDepth 10000 in
/-- C3 counterexample: a `text` of 999 letters followed by one space has
raw length 1000 but trimmed length 999; the claim says it must be rejected
with a 400 naming `text`, yet the adapter accepts it (zod checks `min` and
`max` on the raw string before the `trim` transform) and the orchestrator
is invoked — here it reports its own gateway error, not a validation
error. -/
theorem claim3_counterexample :
    (jsTrim (List.replicate 999 'a' ++ [' '])).length = 999 ∧
    postGenerate
        (RequestBody.objWithText (List.replicate 999 'a' ++ [' ']) none)
        false ⟨false, none, none⟩ 0 =
      PostResult.errorResp respBadGateway := by
  decide

/-- C3 as amended: the adapter's bounds are checked on the UNtrimmed length
— a raw length below 1000 or above 10000 yields a 400 response naming the
`text` field and the violated bound for every orchestrator environment (so
the orchestrator is never invoked), and a text of exactly 1000 characters
whose trimmed content is non-empty proceeds to the orchestrator, which
receives the trimmed text. -/
theorem claim3_length_gate (t : List Char) (m : Option String) (key : Bool)
    (res : ChatResult) (slen : Nat) :
    (t.length < 1000 →
      postGenerate (.objWithText t m) key res slen =
        .validationError 400
          [⟨"text", "Text must be at least 1000 characters"⟩]) ∧
    (10000 < t.length →
      postGenerate (.objWithText t m) key res slen =
        .validationError 400
          [⟨"text", "Text must not exceed 10000 characters"⟩]) ∧
    (t.length = 1000 → 0 < (jsTrim t).length →
      postGenerate (.objWithText t m) key res slen =
        (match generateFlashcards (jsTrim t) m key res slen with
         | .success r => .ok 200 r
         | .failure e => .errorResp (mapGenerateError (.jsErr e)))) := by
  refine ⟨?_, ?_, ?_⟩
  · intro h
    have hz : zodTextCheck t = .err "Text must be at least 1000 characters" := by
      simp only [zodTextCheck]
      rw [if_pos h]
    simp only [postGenerate]
    rw [hz]
  · intro h
    have hz : zodTextCheck t = .err "Text must not exceed 10000 characters" := by
      simp only [zodTextCheck]
      rw [if_neg (by omega), if_pos h]
    simp only [postGenerate]
    rw [hz]
  · intro h1 h2
    have hz : zodTextCheck t = .ok (jsTrim t) := by
      simp only [zodTextCheck]
      rw [if_neg (by omega), if_neg (by omega), if_pos h2]
    simp only [postGenerate]
    rw [hz]

/-- C3 witness: a one-character text is rejected with the 400 response
naming the `text` field and the lower bound. -/
theorem claim3_length_gate_witness :
    postGenerate (RequestBody.objWithText ['a'] none) false
        ⟨false, none, none⟩ 0 =
      PostResult.validationError 400
        [⟨"text", "Text must be at least 1000 characters"⟩] :=
  (claim3_length_gate ['a'] none false ⟨false, none, none⟩ 0).1 (by decide)

/-- C7: the client always returns a tagged result (it is a total function —
the try/catch of the source feeds every thrown error through
`handleApiError`): a missing credential is reported as the configuration
error with a result independent of the fetch outcome (no network attempt
can influence it), a rejected fetch collapses into `success: false` with
the error's message, a non-2xx response collapses into `success: false`,
and a 2xx response whose body is not valid JSON collapses into
`success: false` with the empty-response message. -/
theorem claim7_client_never_throws (T : Type) (opts : ChatOptions)
    (envKey : Option (List Char)) (parse : List Char → Option T)
    (hmsg : opts.userMessage ≠ []) :
    (firstTruthy opts.apiKey envKey = none →
      ∀ f : FetchOutcome, getChatCompletion T opts envKey f parse =
        ⟨false, none, some "OPENROUTER_API_KEY is not configured."⟩) ∧
    (∀ k, firstTruthy opts.apiKey envKey = some k →
      (∀ m, getChatCompletion T opts envKey (.throwErr m) parse =
        ⟨false, none, some m⟩) ∧
      (∀ status body,
        (getChatCompletion T opts envKey (.response false status body)
          parse).success = false) ∧
      (∀ status, getChatCompletion T opts envKey (.response true status none)
          parse =
        ⟨false, none, some "Received an empty response from the AI service."⟩)) := by
  constructor
  · intro hkey f
    rw [getChatCompletion.eq_def, if_neg hmsg, hkey]
  · intro k hkey
    refine ⟨?_, ?_, ?_⟩
    · intro m
      rw [getChatCompletion.eq_def, if_neg hmsg, hkey]
    · intro status body
      rw [getChatCompletion.eq_def, if_neg hmsg, hkey]
      show (if false = false then handleApiErrorPayload T body status
        else parseResponse T body opts.jsonSchemaRequested parse).success = false
      rw [if_pos rfl]
      cases body with
      | none => rfl
      | some p => rfl
    · intro status
      rw [getChatCompletion.eq_def, if_neg hmsg, hkey]
      rfl

/-- C7 witness: with no per-call key and no environment key, the client
reports the configuration error for an arbitrary fetch outcome. -/
theorem claim7_client_never_throws_witness :
    getChatCompletion Unit ⟨['h', 'i'], true, none⟩ none (.throwErr "boom")
        (fun _ => none) =
      ⟨false, none, some "OPENROUTER_API_KEY is not configured."⟩ :=
  (claim7_client_never_throws Unit ⟨['h', 'i'], true, none⟩ none
    (fun _ => none) (by decide)).1 rfl (.throwErr "boom")

/-- C8: when a structured-output (`json_schema`) response was requested and
the reply's non-empty content does not parse as JSON (the `JSON.parse`
oracle returns `none`), `parseResponse` reports the distinct parse-failure
message with `success: false` and no data — the content is not returned as
plain text. -/
theorem claim8_schema_parse_failure (T : Type) (p : UpstreamPayload)
    (c : List Char) (parse : List Char → Option T)
    (h1 : p.content = some c) (h2 : c ≠ []) (h3 : parse c = none) :
    parseResponse T (some p) true parse =
      ⟨false, none, some "The AI response was not valid JSON."⟩ := by
  rw [parseResponse, h1]
  show (if c = [] then _ else _) = _
  rw [if_neg h2, if_pos rfl, h3]

/-- C8 witness: a payload whose content is the non-JSON text "oops" under a
failing parse oracle yields the distinct parse-failure result. -/
theorem claim8_schema_parse_failure_witness :
    parseResponse Unit (some ⟨some ("oops".toList), none, none⟩) true
        (fun _ => none) =
      ⟨false, none, some "The AI response was not valid JSON."⟩ :=
  claim8_schema_parse_failure Unit ⟨some ("oops".toList), none, none⟩
    ("oops".toList) (fun _ => none) rfl (by decide) rfl
